import Mathlib

/-!
Verification development for the Console-Kit terminal UI toolkit.

The development shallowly embeds the two logic-bearing parts of the
repository:

* `src/utils/Colors.ts` — the pure color/style encoder
  (`getColorCode`, `getBackgroundColorCode`, `getStyleCode` and their
  helpers `parseRGB`, `clampRGB`, `generateRGBAnsi`, `hexToAnsi`, ...);
* `src/core/Progress.ts` and the Spinner class — the two animated
  component state machines (construction/validation, `start`, `stop`,
  `update`, `increment`, `complete`, `updateText`,
  `succeed`/`fail`/`warn`/`info`, and the private `render`).

JavaScript numbers are modelled by the inductive `JsNum`: NaN, the two
infinities, and finite values as exact rationals.  The operations the
source performs on numbers (comparison, `Math.min`/`Math.max`/
`Math.round`, truthiness, addition) are modelled on `JsNum` exactly;
no floating-point rounding enters any code path the theorems touch.

Side effects are made explicit: a `World` record carries the stdout
text, the stderr (console) text, the set of live interval timers and a
fresh-id counter; every class method becomes a function from the
component value and a `World` to an updated pair.
-/

set_option maxRecDepth 10000

/-- Model of a JavaScript number: NaN, +Infinity, -Infinity, or a finite
value represented as an exact rational. -/
inductive JsNum where
  | nan : JsNum
  | inf : JsNum
  | negInf : JsNum
  | fin (q : ℚ) : JsNum
deriving DecidableEq, Repr

namespace JsNum

/-- `Number.isNaN` / global `isNaN` on an already-numeric value. -/
def isNaN : JsNum → Bool
  | .nan => true
  | _ => false

/-- `Number.isFinite` on a numeric value. -/
def isFinite : JsNum → Bool
  | .fin _ => true
  | _ => false

/-- JavaScript numeric truthiness: `0`, `-0` and `NaN` are falsy. -/
def isFalsy : JsNum → Bool
  | .nan => true
  | .fin q => q = 0
  | _ => false

/-- `Math.round` (round half toward +∞ for finite values; NaN and the
infinities are fixed points). -/
def jsRound : JsNum → JsNum
  | .nan => .nan
  | .inf => .inf
  | .negInf => .negInf
  | .fin q => .fin ((⌊q + 1/2⌋ : ℤ) : ℚ)

/-- `Math.min` of two numbers (NaN-propagating). -/
def jsMin : JsNum → JsNum → JsNum
  | .nan, _ => .nan
  | _, .nan => .nan
  | .inf, b => b
  | a, .inf => a
  | .negInf, _ => .negInf
  | _, .negInf => .negInf
  | .fin a, .fin b => .fin (min a b)

/-- `Math.max` of two numbers (NaN-propagating). -/
def jsMax : JsNum → JsNum → JsNum
  | .nan, _ => .nan
  | _, .nan => .nan
  | .negInf, b => b
  | a, .negInf => a
  | .inf, _ => .inf
  | _, .inf => .inf
  | .fin a, .fin b => .fin (max a b)

/-- JavaScript `a || b` applied to numbers: returns `b` when `a` is
falsy (0, -0 or NaN). -/
def jsOr (a b : JsNum) : JsNum :=
  if a.isFalsy then b else a

/-- String interpolation of a number.  Only integral finite values are
interpolated by the code paths under verification; they print as their
decimal integer representation, as in JavaScript. -/
def toDisplay : JsNum → String
  | .nan => "NaN"
  | .inf => "Infinity"
  | .negInf => "-Infinity"
  | .fin q => if q.den = 1 then toString q.num else toString q

end JsNum

/-- JavaScript `a || b` applied to strings: returns `b` when `a` is the
empty string (the only falsy string). -/
def jsOrStr (a b : String) : String :=
  if a = "" then b else a

/-- Modelled host behavior: `String.prototype.startsWith`, over the
character list of the string (the byte-position based Lean primitive
does not reduce in the kernel). -/
def jsStartsWith (s t : String) : Bool :=
  t.data.isPrefixOf s.data

/-- Modelled host behavior: `String.prototype.includes` for a single
character. -/
def jsIncludes (s : String) (c : Char) : Bool :=
  s.data.contains c

/-- Splits a character list at every occurrence of `c` (the separator is
dropped; adjacent separators produce empty pieces), as
`String.prototype.split` does for a one-character separator. -/
def splitCharList (c : Char) : List Char → List (List Char)
  | [] => [[]]
  | x :: xs =>
    let r := splitCharList c xs
    if x = c then [] :: r
    else
      match r with
      | y :: ys => (x :: y) :: ys
      | [] => [[x]]

/-- Modelled host behavior: `String.prototype.split` with a
one-character separator. -/
def jsSplit (s : String) (c : Char) : List String :=
  (splitCharList c s.data).map String.mk

/-- JavaScript whitespace recognised by `Number(string)` trimming
(restricted to the common ASCII whitespace characters). -/
def isJsSpace (c : Char) : Bool :=
  c = ' ' || c = '\t' || c = '\n' || c = '\r'

/-- Trim leading and trailing whitespace from a character list. -/
def trimChars (cs : List Char) : List Char :=
  ((cs.dropWhile isJsSpace).reverse.dropWhile isJsSpace).reverse

/-- Is `c` one of the ten decimal digit characters? -/
def isDigitChar (c : Char) : Bool :=
  c = '0' || c = '1' || c = '2' || c = '3' || c = '4' || c = '5' || c = '6'
    || c = '7' || c = '8' || c = '9'

/-- Numeric value of a decimal digit character (0 for anything else). -/
def digitVal (c : Char) : ℕ :=
  if c = '0' then 0 else if c = '1' then 1 else if c = '2' then 2
  else if c = '3' then 3 else if c = '4' then 4 else if c = '5' then 5
  else if c = '6' then 6 else if c = '7' then 7 else if c = '8' then 8
  else if c = '9' then 9 else 0

/-- All digits of a numeral, or `none` when the list is empty or holds a
non-digit. -/
def parseNatDigits (cs : List Char) : Option ℕ :=
  match cs with
  | [] => none
  | _ =>
    if cs.all isDigitChar then
      some (cs.foldl (fun a c => a * 10 + digitVal c) 0)
    else none

/-- Unsigned decimal mantissa: `digits`, `digits.digits`, `digits.` or
`.digits`. -/
def parseUnsigned (t : List Char) : Option ℚ :=
  match splitCharList '.' t with
  | [a] => (parseNatDigits a).map (fun n => (n : ℚ))
  | [a, b] =>
    if a.isEmpty && b.isEmpty then none
    else
      let ia : Option ℕ := if a.isEmpty then some 0 else parseNatDigits a
      let fb : Option ℚ :=
        if b.isEmpty then some 0
        else (parseNatDigits b).map (fun n => (n : ℚ) / (10 ^ b.length))
      match ia, fb with
      | some x, some y => some ((x : ℚ) + y)
      | _, _ => none
  | _ => none

/-- Mantissa with an optional single leading sign. -/
def parseSignedMantissa (t : List Char) : Option ℚ :=
  match t with
  | '-' :: rest => (parseUnsigned rest).map Neg.neg
  | '+' :: rest => parseUnsigned rest
  | _ => parseUnsigned t

/-- Exponent part: an optionally signed integer. -/
def parseSignedExp (t : List Char) : Option ℤ :=
  match t with
  | '-' :: rest => (parseNatDigits rest).map (fun n => -(n : ℤ))
  | '+' :: rest => (parseNatDigits rest).map (fun n => (n : ℤ))
  | _ => (parseNatDigits t).map (fun n => (n : ℤ))

/-- Decimal numeral with optional exponent (`e` or `E`). -/
def parseDecimal (t0 : List Char) : Option ℚ :=
  let t := t0.map (fun c => if c = 'E' then 'e' else c)
  match splitCharList 'e' t with
  | [m] => parseSignedMantissa m
  | [m, e] =>
    match parseSignedMantissa m, parseSignedExp e with
    | some mv, some ev => some (mv * (10 : ℚ) ^ ev)
    | _, _ => none
  | _ => none

/-- Modelled host behavior: JavaScript `Number(string)` conversion,
restricted to the grammar exercised by this repository — whitespace
trimming, the empty string (0), signed `Infinity`, and signed decimal
numerals with an optional fraction and exponent.  Hexadecimal, octal and
binary literal prefixes are not modelled; any other text converts to
NaN, as in JavaScript. -/
def jsNumber (s : String) : JsNum :=
  let t := trimChars s.data
  if t.isEmpty then .fin 0
  else if t = "Infinity".data || t = "+Infinity".data then .inf
  else if t = "-Infinity".data then .negInf
  else
    match parseDecimal t with
    | some q => .fin q
    | none => .nan

/-- `NAMED_COLORS` — the foreground color table of `src/utils/Colors.ts`
(an object literal, modelled as an association list). -/
def NAMED_COLORS : List (String × String) :=
  [("black", "\x1b[30m"),
   ("blue", "\x1b[34m"),
   ("brown", "\x1b[38;5;130m"),
   ("cyan", "\x1b[36m"),
   ("gold", "\x1b[38;5;220m"),
   ("gray", "\x1b[38;5;240m"),
   ("green", "\x1b[32m"),
   ("indigo", "\x1b[38;5;63m"),
   ("lime", "\x1b[38;5;154m"),
   ("magenta", "\x1b[35m"),
   ("orange", "\x1b[38;5;208m"),
   ("pink", "\x1b[38;5;213m"),
   ("purple", "\x1b[38;5;99m"),
   ("red", "\x1b[31m"),
   ("teal", "\x1b[38;5;51m"),
   ("white", "\x1b[38;5;255m"),
   ("yellow", "\x1b[33m"),
   ("brightBlack", "\x1b[38;5;232m"),
   ("brightBlue", "\x1b[94m"),
   ("brightCyan", "\x1b[96m"),
   ("brightGreen", "\x1b[92m"),
   ("brightMagenta", "\x1b[95m"),
   ("brightRed", "\x1b[91m"),
   ("brightWhite", "\x1b[97m"),
   ("brightYellow", "\x1b[93m")]

/-- `NAMED_BACKGROUND_COLORS` — the background color table. -/
def NAMED_BACKGROUND_COLORS : List (String × String) :=
  [("black", "\x1b[40m"),
   ("blue", "\x1b[44m"),
   ("brown", "\x1b[48;5;130m"),
   ("cyan", "\x1b[46m"),
   ("gold", "\x1b[48;5;220m"),
   ("gray", "\x1b[48;5;240m"),
   ("green", "\x1b[42m"),
   ("indigo", "\x1b[48;5;63m"),
   ("lime", "\x1b[48;5;154m"),
   ("magenta", "\x1b[45m"),
   ("orange", "\x1b[48;5;208m"),
   ("pink", "\x1b[48;5;213m"),
   ("purple", "\x1b[48;5;99m"),
   ("red", "\x1b[41m"),
   ("teal", "\x1b[48;5;51m"),
   ("white", "\x1b[47m"),
   ("yellow", "\x1b[43m"),
   ("brightBlack", "\x1b[48;5;232m"),
   ("brightBlue", "\x1b[104m"),
   ("brightCyan", "\x1b[106m"),
   ("brightGreen", "\x1b[102m"),
   ("brightMagenta", "\x1b[105m"),
   ("brightRed", "\x1b[101m"),
   ("brightWhite", "\x1b[107m"),
   ("brightYellow", "\x1b[103m")]

/-- `getNamedColor` — `NAMED_COLORS[color] || ''`. -/
def getNamedColor (color : String) : String :=
  (NAMED_COLORS.lookup color).getD ""

/-- `getNamedBackgroundColor` — `NAMED_BACKGROUND_COLORS[color] || ''`. -/
def getNamedBackgroundColor (color : String) : String :=
  (NAMED_BACKGROUND_COLORS.lookup color).getD ""

/-- `parseRGB` — split on commas, convert each component with `Number`,
destructure the first three (a missing component is `undefined`, which
behaves as NaN under the `isNaN` test applied here), and reject the spec
when any of the three is NaN. -/
def parseRGB (color : String) : Option (JsNum × JsNum × JsNum) :=
  let comps := (jsSplit color ',').map jsNumber
  let r := comps.getD 0 .nan
  let g := comps.getD 1 .nan
  let b := comps.getD 2 .nan
  if r.isNaN || g.isNaN || b.isNaN then none
  else some (r, g, b)

/-- `clampRGB` — `Math.max(0, Math.min(255, Math.round(value) || 0))`. -/
def clampRGB (value : JsNum) : JsNum :=
  JsNum.jsMax (.fin 0) (JsNum.jsMin (.fin 255) (JsNum.jsOr value.jsRound (.fin 0)))

/-- `generateRGBAnsi` — 24-bit SGR escape from three (clamped) components. -/
def generateRGBAnsi (r g b : JsNum) (isBackground : Bool) : String :=
  let clampedR := clampRGB r
  let clampedG := clampRGB g
  let clampedB := clampRGB b
  let pre := if isBackground then "\x1b[48;2;" else "\x1b[38;2;"
  pre ++ clampedR.toDisplay ++ ";" ++ clampedG.toDisplay ++ ";"
    ++ clampedB.toDisplay ++ "m"

/-- Is `c` a hexadecimal digit (either case)? -/
def isHexDigitChar (c : Char) : Bool :=
  isDigitChar c || c = 'a' || c = 'b' || c = 'c' || c = 'd' || c = 'e'
    || c = 'f' || c = 'A' || c = 'B' || c = 'C' || c = 'D' || c = 'E'
    || c = 'F'

/-- The test `/^#[0-9A-Fa-f]{6}$/.test(hex)`. -/
def hexTest (hex : String) : Bool :=
  hex.data.length = 7 && jsStartsWith hex "#" && (hex.data.drop 1).all isHexDigitChar

/-- Numeric value of a hexadecimal digit. -/
def hexDigitVal (c : Char) : ℕ :=
  if isDigitChar c then digitVal c
  else if c = 'a' || c = 'A' then 10
  else if c = 'b' || c = 'B' then 11
  else if c = 'c' || c = 'C' then 12
  else if c = 'd' || c = 'D' then 13
  else if c = 'e' || c = 'E' then 14
  else if c = 'f' || c = 'F' then 15
  else 0

/-- `parseInt(_, 16)` of a two-character slice. -/
def hexPairVal (a b : Char) : ℕ :=
  hexDigitVal a * 16 + hexDigitVal b

/-- `hexToAnsi` — validate `#RRGGBB`, parse the three byte slices, emit a
24-bit foreground escape; empty string when the pattern fails. -/
def hexToAnsi (hex : String) : String :=
  if !hexTest hex then ""
  else
    match hex.data with
    | [_, a, b, c, d, e, f] =>
      generateRGBAnsi (.fin (hexPairVal a b)) (.fin (hexPairVal c d))
        (.fin (hexPairVal e f)) false
    | _ => ""

/-- `hexToAnsiBackground` — as `hexToAnsi` but a background escape. -/
def hexToAnsiBackground (hex : String) : String :=
  if !hexTest hex then ""
  else
    match hex.data with
    | [_, a, b, c, d, e, f] =>
      generateRGBAnsi (.fin (hexPairVal a b)) (.fin (hexPairVal c d))
        (.fin (hexPairVal e f)) true
    | _ => ""

/-- `rgbToAnsi`. -/
def rgbToAnsi (r g b : JsNum) : String :=
  generateRGBAnsi r g b false

/-- `rgbToAnsiBackground`. -/
def rgbToAnsiBackground (r g b : JsNum) : String :=
  generateRGBAnsi r g b true

/-- `getColorCode` — foreground dispatch over hex / RGB / named specs. -/
def getColorCode (color : String) : String :=
  if jsStartsWith color "#" then hexToAnsi color
  else if jsIncludes color ',' then
    match parseRGB color with
    | none => ""
    | some (r, g, b) => rgbToAnsi r g b
  else jsOrStr (getNamedColor color) (getNamedColor "cyan")

/-- `getBackgroundColorCode` — background dispatch over hex / RGB / named
specs; unknown names yield the empty string (no fallback). -/
def getBackgroundColorCode (color : String) : String :=
  if jsStartsWith color "#" then hexToAnsiBackground color
  else if jsIncludes color ',' then
    match parseRGB color with
    | none => ""
    | some (r, g, b) => rgbToAnsiBackground r g b
  else getNamedBackgroundColor color

/-- `getStyleCode` — concatenate the bold, italic, underline escapes for
each true flag, in that order. -/
def getStyleCode (bold italic underline : Bool) : String :=
  (if bold then "\x1b[1m" else "")
    ++ (if italic then "\x1b[3m" else "")
    ++ (if underline then "\x1b[4m" else "")

/-- Explicit model of the ambient effects: the stdout text, the stderr
(console) text, the set of live interval-timer handles, a fresh handle
counter, and the current clock (`Date.now()`). -/
structure World where
  out : String
  err : String
  timers : List ℕ
  nextId : ℕ
  now : ℕ
deriving DecidableEq, Repr

namespace World

/-- `setInterval` — registers a periodic callback and returns the fresh
timer handle. -/
def setInterval (w : World) : ℕ × World :=
  (w.nextId, { w with timers := w.timers ++ [w.nextId], nextId := w.nextId + 1 })

/-- `clearInterval` — deregisters a timer handle. -/
def clearInterval (w : World) (id : ℕ) : World :=
  { w with timers := w.timers.erase id }

/-- `process.stdout.write`. -/
def write (w : World) (s : String) : World :=
  { w with out := w.out ++ s }

/-- `console.warn` (one line on stderr). -/
def consoleWarn (w : World) (s : String) : World :=
  { w with err := w.err ++ s ++ "\n" }

end World

/-- `ProgressOptions` — the user-facing options object of
`src/interfaces/Progress.ts` (`show` is called `showFlag` because `show`
is a Lean keyword). -/
structure ProgressOptions where
  text : Option String := none
  total : JsNum
  current : Option JsNum := none
  style : Option String := none
  color : Option String := none
  backgroundColor : Option String := none
  showFlag : Option Bool := none
  bold : Option Bool := none
  italic : Option Bool := none
  underline : Option Bool := none
deriving DecidableEq, Repr

/-- Projection of a `JsNum` known to be finite onto its rational value;
applied only after a `Number.isFinite` check has succeeded. -/
def JsNum.toQ : JsNum → ℚ
  | .fin q => q
  | _ => 0

/-- `ProgressOptionsInternal` — merged options; `total` and `current`
have passed validation, so they are stored as their rational values. -/
structure ProgressOptionsInternal where
  text : String
  total : ℚ
  current : ℚ
  style : String
  color : String
  backgroundColor : String
  showFlag : Bool
  bold : Bool
  italic : Bool
  underline : Bool
deriving DecidableEq, Repr

/-- `ProgressState` — the mutable state of a `Progress` instance. -/
structure ProgressState where
  text : String
  total : ℚ
  current : ℚ
  isRunning : Bool
  startTime : ℕ
  options : ProgressOptionsInternal
deriving DecidableEq, Repr

/-- A `Progress` instance: its state plus the `intervalId` field. -/
structure Progress where
  state : ProgressState
  intervalId : Option ℕ
deriving DecidableEq, Repr

namespace Progress

/-- The `defaultOptions` field of the `Progress` class. -/
def defaultOptions : ProgressOptionsInternal :=
  { text := "", total := 100, current := 0, style := "bar", color := "cyan",
    backgroundColor := "", showFlag := true, bold := false, italic := false,
    underline := false }

/-- `validateOptions` — throws on non-finite/non-positive `total`, on a
supplied non-finite `current`, and on a supplied style outside
bar/blocks/dots; clamps a supplied finite `current` into `[0, total]`
(first the lower bound, then the upper, as in the source). -/
def validateOptions (options : ProgressOptions) : Except String ProgressOptions :=
  match options.total with
  | .fin t =>
    if t ≤ 0 then .error "Progress total must be a positive finite number"
    else
      let afterCurrent : Except String ProgressOptions :=
        match options.current with
        | some c =>
          match c with
          | .fin cv =>
            let cv1 := if cv < 0 then 0 else cv
            let cv2 := if cv1 > t then t else cv1
            .ok { options with current := some (.fin cv2) }
          | _ => .error "Progress current must be a finite number"
        | none => .ok options
      match afterCurrent with
      | .error e => .error e
      | .ok o =>
        match o.style with
        | some s =>
          if ["bar", "blocks", "dots"].contains s then .ok o
          else .error "Progress style must be one of: bar, blocks, dots"
        | none => .ok o
  | _ => .error "Progress total must be a positive finite number"

/-- The `Progress` constructor: validate, merge over `defaultOptions`,
initialise the state with `isRunning := false` and no timer. -/
def construct (options : ProgressOptions) : Except String Progress :=
  match validateOptions options with
  | .error e => .error e
  | .ok v =>
    let mergedOptions : ProgressOptionsInternal :=
      { text := v.text.getD defaultOptions.text
        total := v.total.toQ
        current := (v.current.map JsNum.toQ).getD defaultOptions.current
        style := v.style.getD defaultOptions.style
        color := v.color.getD defaultOptions.color
        backgroundColor := v.backgroundColor.getD defaultOptions.backgroundColor
        showFlag := v.showFlag.getD defaultOptions.showFlag
        bold := v.bold.getD defaultOptions.bold
        italic := v.italic.getD defaultOptions.italic
        underline := v.underline.getD defaultOptions.underline }
    .ok { state := { text := mergedOptions.text, total := mergedOptions.total,
                     current := mergedOptions.current, isRunning := false,
                     startTime := 0, options := mergedOptions },
          intervalId := none }

/-- `'c'.repeat(n)` for a one-character string. -/
def strRepeat (s : String) (n : ℕ) : String :=
  String.join (List.replicate n s)

/-- `renderBarStyle` — `Math.round` of the filled width (the argument is
already clamped into `[0, 100]`, so the rounded value is a natural
number at most 20). -/
def renderBarStyle (percentage : ℚ) : String :=
  let width : ℕ := 20
  let filled : ℕ := (⌊percentage / 100 * width + 1/2⌋).toNat
  strRepeat "█" filled ++ strRepeat "░" (width - filled)

/-- `renderBlocksStyle`. -/
def renderBlocksStyle (percentage : ℚ) : String :=
  let width : ℕ := 20
  let filled : ℕ := (⌊percentage / 100 * width + 1/2⌋).toNat
  strRepeat "▣" filled ++ strRepeat "▢" (width - filled)

/-- `renderDotsStyle`. -/
def renderDotsStyle (percentage : ℚ) : String :=
  let width : ℕ := 20
  let filled : ℕ := (⌊percentage / 100 * width + 1/2⌋).toNat
  strRepeat "●" filled ++ strRepeat "○" (width - filled)

/-- Models `percentage.toFixed(1)` on the exact rational value (only ever
applied to values in `[0, 100]`). -/
def toFixed1 (q : ℚ) : String :=
  let scaled : ℤ := ⌊q * 10 + 1/2⌋
  toString (scaled / 10) ++ "." ++ toString (scaled % 10)

/-- The private `render` — no-op unless running and shown; otherwise
composes the styled bar line and writes it with a leading
carriage-return/erase-line and no trailing newline. -/
def render (p : Progress) (w : World) : Progress × World :=
  if !p.state.isRunning || !p.state.options.showFlag then (p, w)
  else
    let percentage : ℚ :=
      if p.state.total > 0 then min 100 (max 0 (p.state.current / p.state.total * 100))
      else 0
    let visualBar :=
      if p.state.options.style = "bar" then renderBarStyle percentage
      else if p.state.options.style = "blocks" then renderBlocksStyle percentage
      else if p.state.options.style = "dots" then renderDotsStyle percentage
      else renderBarStyle percentage
    let color :=
      if p.state.options.color ≠ "" then getColorCode p.state.options.color else ""
    let backgroundColor :=
      if p.state.options.backgroundColor ≠ "" then
        getBackgroundColorCode p.state.options.backgroundColor
      else ""
    let styles :=
      getStyleCode p.state.options.bold p.state.options.italic p.state.options.underline
    let text := if p.state.text ≠ "" then " " ++ p.state.text else ""
    let percentageText := " " ++ toFixed1 percentage ++ "%"
    (p, w.write ("\r\x1b[K" ++ styles ++ backgroundColor ++ color ++ visualBar
      ++ percentageText ++ text ++ "\x1b[0m"))

/-- `start(text?)` — no-op while running; otherwise overwrite the text
when the argument is truthy, set running, reset the timing origin,
render once, and register the interval timer. -/
def start (p : Progress) (w : World) (text : Option String) : Progress × World :=
  if p.state.isRunning then (p, w)
  else
    let state1 :=
      match text with
      | some t => if t ≠ "" then { p.state with text := t } else p.state
      | none => p.state
    let p1 : Progress := { p with state := { state1 with isRunning := true, startTime := w.now } }
    let r := p1.render w
    let ws := r.2.setInterval
    ({ r.1 with intervalId := some ws.1 }, ws.2)

/-- `update(current)` — warn and ignore non-finite input; otherwise clamp
into `[0, total]` and re-render when running. -/
def update (p : Progress) (w : World) (current : JsNum) : Progress × World :=
  if !current.isFinite then
    (p, w.consoleWarn "Progress update: Invalid value provided, ignoring update")
  else
    let p1 : Progress :=
      { p with state := { p.state with current := max 0 (min p.state.total current.toQ) } }
    if p1.state.isRunning then p1.render w else (p1, w)

/-- `increment(amount)` — warn and ignore non-finite input; otherwise
`update(current + amount)`. -/
def increment (p : Progress) (w : World) (amount : JsNum) : Progress × World :=
  if !amount.isFinite then
    (p, w.consoleWarn "Progress increment: Invalid amount provided, ignoring increment")
  else p.update w (.fin (p.state.current + amount.toQ))

/-- `stop()` — no-op while not running; otherwise clear the running flag,
release the timer, and write the line-clear sequence. -/
def stop (p : Progress) (w : World) : Progress × World :=
  if !p.state.isRunning then (p, w)
  else
    let p1 : Progress := { p with state := { p.state with isRunning := false } }
    let r :=
      match p1.intervalId with
      | some id => (({ p1 with intervalId := none } : Progress), w.clearInterval id)
      | none => (p1, w)
    (r.1, r.2.write "\r\x1b[K")

/-- `succeed(text?)` — stop, then print the green check line. -/
def succeed (p : Progress) (w : World) (text : Option String) : Progress × World :=
  let r := p.stop w
  let message := jsOrStr (text.getD "") r.1.state.text
  (r.1, r.2.write (getColorCode "green" ++ "✔\x1b[0m " ++ message ++ "\n"))

/-- `fail(text?)` — stop, then print the red cross line. -/
def fail (p : Progress) (w : World) (text : Option String) : Progress × World :=
  let r := p.stop w
  let message := jsOrStr (text.getD "") r.1.state.text
  (r.1, r.2.write (getColorCode "red" ++ "✖\x1b[0m " ++ message ++ "\n"))

/-- `warn(text?)` — stop, then print the yellow warning line. -/
def warn (p : Progress) (w : World) (text : Option String) : Progress × World :=
  let r := p.stop w
  let message := jsOrStr (text.getD "") r.1.state.text
  (r.1, r.2.write (getColorCode "yellow" ++ "⚠\x1b[0m " ++ message ++ "\n"))

/-- `info(text?)` — stop, then print the blue info line. -/
def info (p : Progress) (w : World) (text : Option String) : Progress × World :=
  let r := p.stop w
  let message := jsOrStr (text.getD "") r.1.state.text
  (r.1, r.2.write (getColorCode "blue" ++ "ℹ\x1b[0m " ++ message ++ "\n"))

/-- `complete()` — `update(total)` then `succeed()`. -/
def complete (p : Progress) (w : World) : Progress × World :=
  let r := p.update w (.fin p.state.total)
  r.1.succeed r.2 none

/-- `updateText(text)` — replace the text; re-render when running. -/
def updateText (p : Progress) (w : World) (text : String) : Progress × World :=
  let p1 : Progress := { p with state := { p.state with text := text } }
  if p1.state.isRunning then p1.render w else (p1, w)

end Progress

/-- `SpinnerOptions` — the user-facing options object of
`src/interfaces/Spinner.ts` (`show` is called `showFlag` because `show`
is a Lean keyword). -/
structure SpinnerOptions where
  text : Option String := none
  style : Option String := none
  color : Option String := none
  backgroundColor : Option String := none
  showFlag : Option Bool := none
  spinner : Option (List String) := none
  bold : Option Bool := none
  italic : Option Bool := none
  underline : Option Bool := none
deriving DecidableEq, Repr

/-- `SpinnerOptionsInternal` — merged options. -/
structure SpinnerOptionsInternal where
  text : String
  style : String
  color : String
  backgroundColor : String
  showFlag : Bool
  spinner : List String
  bold : Bool
  italic : Bool
  underline : Bool
deriving DecidableEq, Repr

/-- `SpinnerState` — the mutable state of a `Spinner` instance. -/
structure SpinnerState where
  text : String
  isRunning : Bool
  frameIndex : ℕ
  startTime : ℕ
  options : SpinnerOptionsInternal
deriving DecidableEq, Repr

/-- A `Spinner` instance: its state plus the `intervalId` field. -/
structure Spinner where
  state : SpinnerState
  intervalId : Option ℕ
deriving DecidableEq, Repr

namespace Spinner

/-- The `defaultOptions` field of the `Spinner` class (ten braille
frames). -/
def defaultOptions : SpinnerOptionsInternal :=
  { text := "", style := "dots", color := "cyan", backgroundColor := "",
    showFlag := true,
    spinner := ["⠋", "⠙", "⠹", "⠸", "⠼", "⠴", "⠦", "⠧", "⠇", "⠏"],
    bold := false, italic := false, underline := false }

/-- The `Spinner` constructor: merge over `defaultOptions` (no
validation, no failure path), initialise the state with
`isRunning := false`, `frameIndex := 0` and no timer. -/
def construct (options : SpinnerOptions) : Spinner :=
  let mergedOptions : SpinnerOptionsInternal :=
    { text := options.text.getD defaultOptions.text
      style := options.style.getD defaultOptions.style
      color := options.color.getD defaultOptions.color
      backgroundColor := options.backgroundColor.getD defaultOptions.backgroundColor
      showFlag := options.showFlag.getD defaultOptions.showFlag
      spinner := options.spinner.getD defaultOptions.spinner
      bold := options.bold.getD defaultOptions.bold
      italic := options.italic.getD defaultOptions.italic
      underline := options.underline.getD defaultOptions.underline }
  { state := { text := mergedOptions.text, isRunning := false, frameIndex := 0,
               startTime := 0, options := mergedOptions },
    intervalId := none }

/-- The private `render` — no-op unless running and shown; no-op when the
frame sequence is empty; otherwise write the current frame line and
advance `frameIndex`. -/
def render (s : Spinner) (w : World) : Spinner × World :=
  if !s.state.isRunning || !s.state.options.showFlag then (s, w)
  else if s.state.options.spinner.length = 0 then (s, w)
  else
    let frame := (s.state.options.spinner.get? (s.state.frameIndex % s.state.options.spinner.length)).getD ""
    let color :=
      if s.state.options.color ≠ "" then getColorCode s.state.options.color else ""
    let backgroundColor :=
      if s.state.options.backgroundColor ≠ "" then
        getBackgroundColorCode s.state.options.backgroundColor
      else ""
    let styles :=
      getStyleCode s.state.options.bold s.state.options.italic s.state.options.underline
    let text := if s.state.text ≠ "" then " " ++ s.state.text else ""
    (({ s with state := { s.state with frameIndex := s.state.frameIndex + 1 } } : Spinner),
      w.write ("\r\x1b[K" ++ styles ++ backgroundColor ++ color ++ frame ++ text ++ "\x1b[0m"))

/-- `start(text?)` — no-op while running; otherwise overwrite the text
when the argument is truthy, set running, reset the timing origin and
the frame index, render once, and register the interval timer. -/
def start (s : Spinner) (w : World) (text : Option String) : Spinner × World :=
  if s.state.isRunning then (s, w)
  else
    let state1 :=
      match text with
      | some t => if t ≠ "" then { s.state with text := t } else s.state
      | none => s.state
    let s1 : Spinner :=
      { s with state := { state1 with isRunning := true, startTime := w.now, frameIndex := 0 } }
    let r := s1.render w
    let ws := r.2.setInterval
    ({ r.1 with intervalId := some ws.1 }, ws.2)

/-- `stop()` — no-op while not running; otherwise clear the running flag,
release the timer, and write the line-clear sequence. -/
def stop (s : Spinner) (w : World) : Spinner × World :=
  if !s.state.isRunning then (s, w)
  else
    let s1 : Spinner := { s with state := { s.state with isRunning := false } }
    let r :=
      match s1.intervalId with
      | some id => (({ s1 with intervalId := none } : Spinner), w.clearInterval id)
      | none => (s1, w)
    (r.1, r.2.write "\r\x1b[K")

/-- `succeed(text?)` — stop, then print the green check line. -/
def succeed (s : Spinner) (w : World) (text : Option String) : Spinner × World :=
  let r := s.stop w
  let message := jsOrStr (text.getD "") r.1.state.text
  (r.1, r.2.write (getColorCode "green" ++ "✔\x1b[0m " ++ message ++ "\n"))

/-- `fail(text?)` — stop, then print the red cross line. -/
def fail (s : Spinner) (w : World) (text : Option String) : Spinner × World :=
  let r := s.stop w
  let message := jsOrStr (text.getD "") r.1.state.text
  (r.1, r.2.write (getColorCode "red" ++ "✖\x1b[0m " ++ message ++ "\n"))

/-- `warn(text?)` — stop, then print the yellow warning line. -/
def warn (s : Spinner) (w : World) (text : Option String) : Spinner × World :=
  let r := s.stop w
  let message := jsOrStr (text.getD "") r.1.state.text
  (r.1, r.2.write (getColorCode "yellow" ++ "⚠\x1b[0m " ++ message ++ "\n"))

/-- `info(text?)` — stop, then print the blue info line. -/
def info (s : Spinner) (w : World) (text : Option String) : Spinner × World :=
  let r := s.stop w
  let message := jsOrStr (text.getD "") r.1.state.text
  (r.1, r.2.write (getColorCode "blue" ++ "ℹ\x1b[0m " ++ message ++ "\n"))

/-- `updateText(text)` — replace the text; re-render when running. -/
def updateText (s : Spinner) (w : World) (text : String) : Spinner × World :=
  let s1 : Spinner := { s with state := { s.state with text := text } }
  if s1.state.isRunning then s1.render w else (s1, w)

end Spinner

/-- The message selected by a status call: the supplied text unless it is
absent or empty, in which case the component's last display text. -/
def statusText (t : Option String) (fallback : String) : String :=
  match t with
  | some s => if s = "" then fallback else s
  | none => fallback

/-- A concrete merged options record used by witnesses. -/
def sampleOptions : ProgressOptionsInternal :=
  { text := "demo", total := 100, current := 50, style := "bar", color := "cyan",
    backgroundColor := "", showFlag := true, bold := false, italic := false,
    underline := false }

/-- A concrete idle Progress instance (`total` 100, `current` 50). -/
def sampleProgress : Progress :=
  { state := { text := "demo", total := 100, current := 50, isRunning := false,
               startTime := 0, options := sampleOptions },
    intervalId := none }

/-- A concrete initial world. -/
def sampleWorld : World :=
  { out := "", err := "", timers := [], nextId := 1, now := 0 }

/-- The C7 invariant: `current` stays within `[0, total]`. -/
def progressInRange (p : Progress) : Prop :=
  0 ≤ p.state.current ∧ p.state.current ≤ p.state.total

/-- The C4 invariant for Progress: the timer handle is set iff running. -/
def Progress.timerInv (p : Progress) : Prop :=
  p.intervalId.isSome = p.state.isRunning

/-- The C4 invariant for Spinner: the timer handle is set iff running. -/
def Spinner.timerInv (s : Spinner) : Prop :=
  s.intervalId.isSome = s.state.isRunning

/-- The instance produced by `new Progress({ total: 100 })`. -/
def constructedProgress : Progress :=
  { state := { text := "", total := 100, current := 0, isRunning := false,
               startTime := 0,
               options := { text := "", total := 100, current := 0, style := "bar",
                            color := "cyan", backgroundColor := "", showFlag := true,
                            bold := false, italic := false, underline := false } },
    intervalId := none }

/-- A Spinner constructed with an empty frame array. -/
def emptyFrameSpinner : Spinner :=
  Spinner.construct { spinner := some [] }

/-- A running Spinner with the default frames, used to witness the
frame-selection clause. -/
def runningSpinner : Spinner :=
  { state := { text := "load", isRunning := true, frameIndex := 3, startTime := 0,
               options := { text := "load", style := "dots", color := "",
                            backgroundColor := "", showFlag := true,
                            spinner := ["a", "b", "c"], bold := false,
                            italic := false, underline := false } },
    intervalId := some 1 }

namespace Progress

theorem render_fst (p : Progress) (w : World) : (p.render w).1 = p := by
  unfold render
  split
  · rfl
  · rfl

theorem render_timers (p : Progress) (w : World) : (p.render w).2.timers = w.timers := by
  unfold render
  split
  · rfl
  · rfl

theorem render_nextId (p : Progress) (w : World) : (p.render w).2.nextId = w.nextId := by
  unfold render
  split
  · rfl
  · rfl

theorem render_now (p : Progress) (w : World) : (p.render w).2.now = w.now := by
  unfold render
  split
  · rfl
  · rfl

theorem render_err (p : Progress) (w : World) : (p.render w).2.err = w.err := by
  unfold render
  split
  · rfl
  · rfl

theorem start_of_running (p : Progress) (w : World) (t : Option String)
    (h : p.state.isRunning = true) : p.start w t = (p, w) := by
  unfold start
  simp [h]

theorem start_fst (p : Progress) (w : World) (t : Option String)
    (h : p.state.isRunning = false) :
    (p.start w t).1 =
      { p with
        state :=
          { (match t with
             | some s => if s ≠ "" then { p.state with text := s } else p.state
             | none => p.state) with
            isRunning := true, startTime := w.now },
        intervalId := some w.nextId } := by
  unfold start
  simp only [h, Bool.false_eq_true, if_false, render_fst, render_nextId, World.setInterval]

theorem start_snd_timers (p : Progress) (w : World) (t : Option String)
    (h : p.state.isRunning = false) :
    (p.start w t).2.timers = w.timers ++ [w.nextId] ∧
    (p.start w t).2.nextId = w.nextId + 1 := by
  unfold start
  simp only [h, Bool.false_eq_true, if_false, World.setInterval, render_timers,
    render_nextId]
  simp

theorem update_fst_fin (p : Progress) (w : World) (c : ℚ) :
    (p.update w (.fin c)).1 =
      { p with state := { p.state with current := max 0 (min p.state.total c) } } := by
  unfold update
  simp only [JsNum.isFinite, Bool.not_true, Bool.false_eq_true, if_false, JsNum.toQ]
  split
  · exact render_fst _ w
  · rfl

theorem update_eq_nonfin (p : Progress) (w : World) (v : JsNum)
    (h : v.isFinite = false) :
    p.update w v =
      (p, w.consoleWarn "Progress update: Invalid value provided, ignoring update") := by
  unfold update
  simp [h]

theorem increment_eq_nonfin (p : Progress) (w : World) (v : JsNum)
    (h : v.isFinite = false) :
    p.increment w v =
      (p, w.consoleWarn "Progress increment: Invalid amount provided, ignoring increment") := by
  unfold increment
  simp [h]

theorem increment_eq_fin (p : Progress) (w : World) (a : ℚ) :
    p.increment w (.fin a) = p.update w (.fin (p.state.current + a)) := by
  unfold increment
  simp [JsNum.isFinite, JsNum.toQ]

theorem stop_of_not_running (p : Progress) (w : World)
    (h : p.state.isRunning = false) : p.stop w = (p, w) := by
  unfold stop
  simp [h]

theorem stop_fst (p : Progress) (w : World) (h : p.state.isRunning = true) :
    (p.stop w).1 =
      { p with state := { p.state with isRunning := false }, intervalId := none } := by
  unfold stop
  simp only [h, Bool.not_true, Bool.false_eq_true, if_false]
  cases hi : p.intervalId with
  | some id => simp [hi]
  | none => simp [hi]

end Progress

namespace Progress

theorem updateText_fst (p : Progress) (w : World) (t : String) :
    (p.updateText w t).1 = { p with state := { p.state with text := t } } := by
  unfold updateText
  dsimp only
  split
  · exact render_fst _ w
  · rfl

theorem succeed_fst (p : Progress) (w : World) (t : Option String) :
    (p.succeed w t).1 = (p.stop w).1 := rfl

theorem fail_fst (p : Progress) (w : World) (t : Option String) :
    (p.fail w t).1 = (p.stop w).1 := rfl

theorem warn_fst (p : Progress) (w : World) (t : Option String) :
    (p.warn w t).1 = (p.stop w).1 := rfl

theorem info_fst (p : Progress) (w : World) (t : Option String) :
    (p.info w t).1 = (p.stop w).1 := rfl

theorem complete_fst (p : Progress) (w : World) :
    (p.complete w).1 =
      ((p.update w (.fin p.state.total)).1.stop (p.update w (.fin p.state.total)).2).1 := rfl

theorem stop_state_text (p : Progress) (w : World) :
    (p.stop w).1.state.text = p.state.text := by
  cases h : p.state.isRunning with
  | false => rw [stop_of_not_running p w h]
  | true => rw [stop_fst p w h]

theorem stop_state_current (p : Progress) (w : World) :
    (p.stop w).1.state.current = p.state.current := by
  cases h : p.state.isRunning with
  | false => rw [stop_of_not_running p w h]
  | true => rw [stop_fst p w h]

theorem stop_state_total (p : Progress) (w : World) :
    (p.stop w).1.state.total = p.state.total := by
  cases h : p.state.isRunning with
  | false => rw [stop_of_not_running p w h]
  | true => rw [stop_fst p w h]

theorem start_state_current (p : Progress) (w : World) (t : Option String) :
    (p.start w t).1.state.current = p.state.current := by
  cases h : p.state.isRunning with
  | true => rw [start_of_running p w t h]
  | false =>
    rw [start_fst p w t h]
    cases t with
    | none => rfl
    | some s =>
      by_cases hs : s ≠ "" <;> simp [hs]

theorem start_state_total (p : Progress) (w : World) (t : Option String) :
    (p.start w t).1.state.total = p.state.total := by
  cases h : p.state.isRunning with
  | true => rw [start_of_running p w t h]
  | false =>
    rw [start_fst p w t h]
    cases t with
    | none => rfl
    | some s =>
      by_cases hs : s ≠ "" <;> simp [hs]

theorem update_state_current_fin (p : Progress) (w : World) (c : ℚ) :
    (p.update w (.fin c)).1.state.current = max 0 (min p.state.total c) := by
  rw [update_fst_fin]

theorem update_state_total_fin (p : Progress) (w : World) (c : ℚ) :
    (p.update w (.fin c)).1.state.total = p.state.total := by
  rw [update_fst_fin]

end Progress

namespace Spinner

theorem render_empty (s : Spinner) (w : World)
    (h : s.state.options.spinner = []) : s.render w = (s, w) := by
  unfold render
  split
  · rfl
  · simp [h]

theorem render_fst_isRunning (s : Spinner) (w : World) :
    (s.render w).1.state.isRunning = s.state.isRunning := by
  unfold render
  split
  · rfl
  · split
    · rfl
    · rfl

theorem render_fst_intervalId (s : Spinner) (w : World) :
    (s.render w).1.intervalId = s.intervalId := by
  unfold render
  split
  · rfl
  · split
    · rfl
    · rfl

theorem render_fst_text (s : Spinner) (w : World) :
    (s.render w).1.state.text = s.state.text := by
  unfold render
  split
  · rfl
  · split
    · rfl
    · rfl

theorem render_fst_options (s : Spinner) (w : World) :
    (s.render w).1.state.options = s.state.options := by
  unfold render
  split
  · rfl
  · split
    · rfl
    · rfl

theorem render_timers' (s : Spinner) (w : World) : (s.render w).2.timers = w.timers := by
  unfold render
  split
  · rfl
  · split
    · rfl
    · rfl

theorem render_nextId' (s : Spinner) (w : World) : (s.render w).2.nextId = w.nextId := by
  unfold render
  split
  · rfl
  · split
    · rfl
    · rfl

theorem render_now' (s : Spinner) (w : World) : (s.render w).2.now = w.now := by
  unfold render
  split
  · rfl
  · split
    · rfl
    · rfl

theorem start_of_running' (s : Spinner) (w : World) (t : Option String)
    (h : s.state.isRunning = true) : s.start w t = (s, w) := by
  unfold start
  simp [h]

theorem start_fst_intervalId (s : Spinner) (w : World) (t : Option String)
    (h : s.state.isRunning = false) :
    (s.start w t).1.intervalId = some w.nextId := by
  unfold start
  simp only [h, Bool.false_eq_true, if_false, World.setInterval, render_nextId']

theorem start_fst_isRunning' (s : Spinner) (w : World) (t : Option String) :
    (s.start w t).1.state.isRunning = true := by
  cases h : s.state.isRunning with
  | true => rw [start_of_running' s w t h]; exact h
  | false =>
    unfold start
    simp only [h, Bool.false_eq_true, if_false]
    rw [render_fst_isRunning]

theorem start_snd_timers' (s : Spinner) (w : World) (t : Option String)
    (h : s.state.isRunning = false) :
    (s.start w t).2.timers = w.timers ++ [w.nextId] ∧
    (s.start w t).2.nextId = w.nextId + 1 := by
  unfold start
  simp only [h, Bool.false_eq_true, if_false, World.setInterval, render_timers',
    render_nextId']
  simp

theorem stop_of_not_running' (s : Spinner) (w : World)
    (h : s.state.isRunning = false) : s.stop w = (s, w) := by
  unfold stop
  simp [h]

theorem stop_fst' (s : Spinner) (w : World) (h : s.state.isRunning = true) :
    (s.stop w).1 =
      { s with state := { s.state with isRunning := false }, intervalId := none } := by
  unfold stop
  simp only [h, Bool.not_true, Bool.false_eq_true, if_false]
  cases hi : s.intervalId with
  | some id => simp [hi]
  | none => simp [hi]

theorem succeed_fst' (s : Spinner) (w : World) (t : Option String) :
    (s.succeed w t).1 = (s.stop w).1 := rfl

theorem fail_fst' (s : Spinner) (w : World) (t : Option String) :
    (s.fail w t).1 = (s.stop w).1 := rfl

theorem warn_fst' (s : Spinner) (w : World) (t : Option String) :
    (s.warn w t).1 = (s.stop w).1 := rfl

theorem info_fst' (s : Spinner) (w : World) (t : Option String) :
    (s.info w t).1 = (s.stop w).1 := rfl

theorem stop_state_text' (s : Spinner) (w : World) :
    (s.stop w).1.state.text = s.state.text := by
  cases h : s.state.isRunning with
  | false => rw [stop_of_not_running' s w h]
  | true => rw [stop_fst' s w h]

theorem updateText_fst' (s : Spinner) (w : World) (t : String) :
    (s.updateText w t).1.state.text = t ∧
    (s.updateText w t).1.intervalId = s.intervalId ∧
    (s.updateText w t).1.state.isRunning = s.state.isRunning := by
  unfold updateText
  dsimp only
  split
  · exact ⟨render_fst_text _ w, render_fst_intervalId _ w, render_fst_isRunning _ w⟩
  · exact ⟨rfl, rfl, rfl⟩

end Spinner

/-- C5: for every color spec that neither starts with `#` nor contains a
comma, `getColorCode` returns the named table entry when the name is in
the 25-entry table and the entry for `"cyan"` otherwise, while
`getBackgroundColorCode` returns its table entry when present and the
empty string otherwise. -/
theorem named_color_fallback (s : String)
    (hhash : jsStartsWith s "#" = false) (hcomma : jsIncludes s ',' = false) :
    (getNamedColor s = "" → getColorCode s = getNamedColor "cyan") ∧
    (getNamedColor s ≠ "" → getColorCode s = getNamedColor s) ∧
    (getNamedBackgroundColor s = "" → getBackgroundColorCode s = "") ∧
    (getNamedBackgroundColor s ≠ "" →
      getBackgroundColorCode s = getNamedBackgroundColor s) ∧
    NAMED_COLORS.length = 25 ∧ NAMED_BACKGROUND_COLORS.length = 25 := by
  refine ⟨?_, ?_, ?_, ?_, rfl, rfl⟩ <;> intro h <;>
    simp [getColorCode, getBackgroundColorCode, hhash, hcomma, jsOrStr, h]

/-- C5 witness: the concrete inputs from the specification. -/
theorem named_color_fallback_witness :
    getColorCode "not-a-color" = getNamedColor "cyan" ∧
    getColorCode "not-a-color" = getColorCode "cyan" ∧
    getBackgroundColorCode "not-a-color" = "" :=
  ⟨(named_color_fallback "not-a-color" (by decide) (by decide)).1 (by decide),
   ((named_color_fallback "not-a-color" (by decide) (by decide)).1 (by decide)).trans
     (by decide),
   (named_color_fallback "not-a-color" (by decide) (by decide)).2.2.1 (by decide)⟩

/-- C2 counterexample: the spec claims any non-finite component makes the
result empty, but `parseRGB` only rejects NaN components: `"Infinity"`
converts to a non-finite number, yet `"Infinity,0,0"` produces a full
24-bit escape (Infinity clamps to 255), not the empty string. -/
theorem rgb_nonfinite_counterexample :
    jsIncludes "Infinity,0,0" ',' = true ∧
    (jsNumber "Infinity").isFinite = false ∧
    getColorCode "Infinity,0,0" = "\x1b[38;2;255;0;0m" ∧
    getBackgroundColorCode "Infinity,0,0" = "\x1b[48;2;255;0;0m" ∧
    getColorCode "Infinity,0,0" ≠ "" := by
  refine ⟨by decide, by decide, ?_, ?_, ?_⟩
  · norm_num +decide [getColorCode, jsStartsWith, jsIncludes, parseRGB, jsSplit,
      splitCharList, jsNumber, trimChars, isJsSpace, parseDecimal,
      parseSignedMantissa, parseUnsigned, parseNatDigits, digitVal, isDigitChar,
      rgbToAnsi, generateRGBAnsi, clampRGB, JsNum.jsMax, JsNum.jsMin, JsNum.jsOr,
      JsNum.isFalsy, JsNum.jsRound, JsNum.toDisplay, JsNum.isNaN]
  · norm_num +decide [getBackgroundColorCode, jsStartsWith, jsIncludes, parseRGB, jsSplit,
      splitCharList, jsNumber, trimChars, isJsSpace, parseDecimal,
      parseSignedMantissa, parseUnsigned, parseNatDigits, digitVal, isDigitChar,
      rgbToAnsiBackground, generateRGBAnsi, clampRGB, JsNum.jsMax, JsNum.jsMin,
      JsNum.jsOr, JsNum.isFalsy, JsNum.jsRound, JsNum.toDisplay, JsNum.isNaN]
  · norm_num +decide [getColorCode, jsStartsWith, jsIncludes, parseRGB, jsSplit,
      splitCharList, jsNumber, trimChars, isJsSpace, parseDecimal,
      parseSignedMantissa, parseUnsigned, parseNatDigits, digitVal, isDigitChar,
      rgbToAnsi, generateRGBAnsi, clampRGB, JsNum.jsMax, JsNum.jsMin, JsNum.jsOr,
      JsNum.isFalsy, JsNum.jsRound, JsNum.toDisplay, JsNum.isNaN]

/-- C2 (amended): a comma-containing spec is rejected (empty string from
both encoders) exactly when one of its first three components converts
to NaN; otherwise each component — including infinite ones — is clamped
by `clampRGB` and a 24-bit escape with the clamped decimal values is
emitted. -/
theorem rgb_clamping (s : String) (r g b : JsNum)
    (hhash : jsStartsWith s "#" = false) (hcomma : jsIncludes s ',' = true)
    (hr : ((jsSplit s ',').map jsNumber).getD 0 .nan = r)
    (hg : ((jsSplit s ',').map jsNumber).getD 1 .nan = g)
    (hb : ((jsSplit s ',').map jsNumber).getD 2 .nan = b) :
    ((r.isNaN || g.isNaN || b.isNaN) = true →
       getColorCode s = "" ∧ getBackgroundColorCode s = "") ∧
    ((r.isNaN || g.isNaN || b.isNaN) = false →
       getColorCode s = "\x1b[38;2;" ++ (clampRGB r).toDisplay ++ ";"
           ++ (clampRGB g).toDisplay ++ ";" ++ (clampRGB b).toDisplay ++ "m" ∧
       getBackgroundColorCode s = "\x1b[48;2;" ++ (clampRGB r).toDisplay ++ ";"
           ++ (clampRGB g).toDisplay ++ ";" ++ (clampRGB b).toDisplay ++ "m") := by
  constructor
  · intro h
    have hp : parseRGB s = none := by
      unfold parseRGB
      simp only [hr, hg, hb]
      simp [h]
    constructor
    · simp [getColorCode, hhash, hcomma, hp]
    · simp [getBackgroundColorCode, hhash, hcomma, hp]
  · intro h
    have hp : parseRGB s = some (r, g, b) := by
      unfold parseRGB
      simp only [hr, hg, hb]
      simp only [h, if_false, Bool.false_eq_true]
    constructor
    · simp [getColorCode, hhash, hcomma, hp, rgbToAnsi, generateRGBAnsi]
    · simp [getBackgroundColorCode, hhash, hcomma, hp, rgbToAnsiBackground,
        generateRGBAnsi]

/-- C2 witness: the amended clamping statement applied to the concrete
spec `"300,-10,128"` from the specification, which emits `255;0;128`. -/
theorem rgb_clamping_witness :
    getColorCode "300,-10,128" = "\x1b[38;2;255;0;128m" ∧
    getBackgroundColorCode "300,-10,128" = "\x1b[48;2;255;0;128m" := by
  have h := (rgb_clamping "300,-10,128" (.fin 300) (.fin (-10)) (.fin 128)
    (by decide) (by decide) (by decide) (by decide) (by decide)).2 (by decide)
  have hr : (clampRGB (.fin 300)).toDisplay = "255" := by
    norm_num +decide [clampRGB, JsNum.jsMax, JsNum.jsMin, JsNum.jsOr, JsNum.isFalsy,
      JsNum.jsRound, JsNum.toDisplay]
  have hg : (clampRGB (.fin (-10))).toDisplay = "0" := by
    norm_num +decide [clampRGB, JsNum.jsMax, JsNum.jsMin, JsNum.jsOr, JsNum.isFalsy,
      JsNum.jsRound, JsNum.toDisplay]
  have hb : (clampRGB (.fin 128)).toDisplay = "128" := by
    norm_num +decide [clampRGB, JsNum.jsMax, JsNum.jsMin, JsNum.jsOr, JsNum.isFalsy,
      JsNum.jsRound, JsNum.toDisplay]
  rw [h.1, h.2, hr, hg, hb]
  exact ⟨by decide, by decide⟩

/-- C10: both components branch on string truthiness, so an empty string
argument behaves exactly like an absent argument: `start("")` does not
overwrite the text, and the four status calls fall back to the last
display text. -/
theorem empty_text_like_absent :
    (∀ (p : Progress) (w : World), p.start w (some "") = p.start w none) ∧
    (∀ (p : Progress) (w : World), p.succeed w (some "") = p.succeed w none) ∧
    (∀ (p : Progress) (w : World), p.fail w (some "") = p.fail w none) ∧
    (∀ (p : Progress) (w : World), p.warn w (some "") = p.warn w none) ∧
    (∀ (p : Progress) (w : World), p.info w (some "") = p.info w none) ∧
    (∀ (s : Spinner) (w : World), s.start w (some "") = s.start w none) ∧
    (∀ (s : Spinner) (w : World), s.succeed w (some "") = s.succeed w none) ∧
    (∀ (s : Spinner) (w : World), s.fail w (some "") = s.fail w none) ∧
    (∀ (s : Spinner) (w : World), s.warn w (some "") = s.warn w none) ∧
    (∀ (s : Spinner) (w : World), s.info w (some "") = s.info w none) := by
  refine ⟨fun p w => ?_, fun p w => rfl, fun p w => rfl, fun p w => rfl,
    fun p w => rfl, fun s w => ?_, fun s w => rfl, fun s w => rfl,
    fun s w => rfl, fun s w => rfl⟩
  · unfold Progress.start
    simp
  · unfold Spinner.start
    simp

theorem statusText_eq (t : Option String) (f : String) :
    jsOrStr (t.getD "") f = statusText t f := by
  cases t with
  | none => simp [jsOrStr, statusText]
  | some s =>
    by_cases h : s = "" <;> simp [jsOrStr, statusText, h]

/-- C6: every status call on either component first performs `stop()`,
then writes exactly one line — status color, fixed symbol, reset, one
space, the message (supplied text or last display text, uncolored), and
a newline — with the fixed pairs (✔, green), (✖, red), (⚠, yellow),
(ℹ, blue). -/
theorem status_line_format :
    getColorCode "green" = "\x1b[32m" ∧ getColorCode "red" = "\x1b[31m" ∧
    getColorCode "yellow" = "\x1b[33m" ∧ getColorCode "blue" = "\x1b[34m" ∧
    (∀ (p : Progress) (w : World) (t : Option String),
      p.succeed w t = ((p.stop w).1,
        (p.stop w).2.write (getColorCode "green" ++ "✔\x1b[0m "
          ++ statusText t p.state.text ++ "\n"))) ∧
    (∀ (p : Progress) (w : World) (t : Option String),
      p.fail w t = ((p.stop w).1,
        (p.stop w).2.write (getColorCode "red" ++ "✖\x1b[0m "
          ++ statusText t p.state.text ++ "\n"))) ∧
    (∀ (p : Progress) (w : World) (t : Option String),
      p.warn w t = ((p.stop w).1,
        (p.stop w).2.write (getColorCode "yellow" ++ "⚠\x1b[0m "
          ++ statusText t p.state.text ++ "\n"))) ∧
    (∀ (p : Progress) (w : World) (t : Option String),
      p.info w t = ((p.stop w).1,
        (p.stop w).2.write (getColorCode "blue" ++ "ℹ\x1b[0m "
          ++ statusText t p.state.text ++ "\n"))) ∧
    (∀ (s : Spinner) (w : World) (t : Option String),
      s.succeed w t = ((s.stop w).1,
        (s.stop w).2.write (getColorCode "green" ++ "✔\x1b[0m "
          ++ statusText t s.state.text ++ "\n"))) ∧
    (∀ (s : Spinner) (w : World) (t : Option String),
      s.fail w t = ((s.stop w).1,
        (s.stop w).2.write (getColorCode "red" ++ "✖\x1b[0m "
          ++ statusText t s.state.text ++ "\n"))) ∧
    (∀ (s : Spinner) (w : World) (t : Option String),
      s.warn w t = ((s.stop w).1,
        (s.stop w).2.write (getColorCode "yellow" ++ "⚠\x1b[0m "
          ++ statusText t s.state.text ++ "\n"))) ∧
    (∀ (s : Spinner) (w : World) (t : Option String),
      s.info w t = ((s.stop w).1,
        (s.stop w).2.write (getColorCode "blue" ++ "ℹ\x1b[0m "
          ++ statusText t s.state.text ++ "\n"))) := by
  refine ⟨by decide, by decide, by decide, by decide, ?_, ?_, ?_, ?_, ?_, ?_, ?_, ?_⟩
  · intro p w t
    simp only [Progress.succeed]
    rw [Progress.stop_state_text, statusText_eq]
  · intro p w t
    simp only [Progress.fail]
    rw [Progress.stop_state_text, statusText_eq]
  · intro p w t
    simp only [Progress.warn]
    rw [Progress.stop_state_text, statusText_eq]
  · intro p w t
    simp only [Progress.info]
    rw [Progress.stop_state_text, statusText_eq]
  · intro s w t
    simp only [Spinner.succeed]
    rw [Spinner.stop_state_text', statusText_eq]
  · intro s w t
    simp only [Spinner.fail]
    rw [Spinner.stop_state_text', statusText_eq]
  · intro s w t
    simp only [Spinner.warn]
    rw [Spinner.stop_state_text', statusText_eq]
  · intro s w t
    simp only [Spinner.info]
    rw [Spinner.stop_state_text', statusText_eq]

namespace Progress

theorem validateOptions_ok_iff (o : ProgressOptions) :
    (∃ v, Progress.validateOptions o = .ok v) ↔
      ((∃ t : ℚ, o.total = .fin t ∧ 0 < t) ∧
       (∀ c, o.current = some c → c.isFinite = true) ∧
       (∀ st, o.style = some st →
         (st = "bar" ∨ st = "blocks" ∨ st = "dots"))) := by
  unfold Progress.validateOptions
  cases ht : o.total with
  | nan => simp [ht]
  | inf => simp [ht]
  | negInf => simp [ht]
  | fin t =>
    by_cases h0 : t ≤ 0
    · simp [ht, h0, not_lt.mpr h0]
    · simp only [ht, h0, if_false, JsNum.fin.injEq]
      cases hc : o.current with
      | none =>
        cases hs : o.style with
        | none =>
          simp [hs, hc, not_le.mp h0]
        | some st =>
          by_cases hst : st = "bar" ∨ st = "blocks" ∨ st = "dots"
          · simp [hs, hc, hst, not_le.mp h0]
          · simp [hs, hc, hst]
      | some c =>
        cases c with
        | fin cv =>
          cases hs : o.style with
          | none =>
            simp [hs, hc, not_le.mp h0, JsNum.isFinite]
          | some st =>
            by_cases hst : st = "bar" ∨ st = "blocks" ∨ st = "dots"
            · simp [hs, hc, hst, not_le.mp h0, JsNum.isFinite]
            · simp [hs, hc, hst]
        | nan => simp [hc, JsNum.isFinite]
        | inf => simp [hc, JsNum.isFinite]
        | negInf => simp [hc, JsNum.isFinite]

end Progress

namespace Progress

theorem clamp_chain_eq (t c : ℚ) (h0 : 0 < t) :
    (if (if c < 0 then 0 else c) > t then t else (if c < 0 then 0 else c)) =
      max 0 (min t c) := by
  rcases lt_or_le c 0 with hcn | hcp
  · rw [if_pos hcn, if_neg (not_lt.mpr h0.le),
      min_eq_right (hcn.le.trans h0.le), max_eq_left hcn.le]
  · rw [if_neg (not_lt.mpr hcp)]
    rcases le_or_lt c t with hct | htc
    · rw [if_neg (not_lt.mpr hct), min_eq_right hct, max_eq_right hcp]
    · rw [if_pos htc, min_eq_left htc.le, max_eq_right h0.le]

theorem construct_clamps (o : ProgressOptions) (t c : ℚ) (p : Progress)
    (ht : o.total = .fin t) (hc : o.current = some (.fin c))
    (hok : Progress.construct o = .ok p) :
    p.state.current = max 0 (min t c) ∧ p.state.total = t := by
  unfold Progress.construct Progress.validateOptions at hok
  rw [ht, hc] at hok
  by_cases h0 : t ≤ 0
  · simp [h0] at hok
  · have h0' : 0 < t := not_le.mp h0
    simp only [h0, if_false] at hok
    cases hs : o.style with
    | none =>
      rw [hs] at hok
      simp only [Except.ok.injEq] at hok
      subst hok
      refine ⟨?_, by simp [ht, JsNum.toQ]⟩
      simp [JsNum.toQ, clamp_chain_eq t c h0']
    | some st =>
      rw [hs] at hok
      dsimp only at hok
      by_cases hst : (["bar", "blocks", "dots"].contains st) = true
      · rw [if_pos hst] at hok
        simp only [Except.ok.injEq] at hok
        subst hok
        refine ⟨?_, by simp [ht, JsNum.toQ]⟩
        simp [JsNum.toQ, clamp_chain_eq t c h0']
      · rw [if_neg hst] at hok
        simp at hok

end Progress

/-- C1: Progress construction succeeds exactly when `total` is a finite
number > 0, any supplied `current` is finite, and any supplied `style` is
one of bar/blocks/dots; a supplied finite `current` is silently clamped
into `[0, total]` rather than rejected; Spinner construction never fails
and yields the idle initial state. -/
theorem construction_validation :
    (∀ o : ProgressOptions,
      (∃ p, Progress.construct o = .ok p) ↔
        ((∃ t : ℚ, o.total = .fin t ∧ 0 < t) ∧
         (∀ c, o.current = some c → c.isFinite = true) ∧
         (∀ st, o.style = some st →
           (st = "bar" ∨ st = "blocks" ∨ st = "dots")))) ∧
    (∀ (o : ProgressOptions) (t c : ℚ) (p : Progress),
      o.total = .fin t → o.current = some (.fin c) →
      Progress.construct o = .ok p →
      p.state.current = max 0 (min t c) ∧ p.state.total = t) ∧
    (∀ so : SpinnerOptions,
      (Spinner.construct so).state.isRunning = false ∧
      (Spinner.construct so).intervalId = none ∧
      (Spinner.construct so).state.frameIndex = 0) := by
  refine ⟨?_, ?_, ?_⟩
  · intro o
    rw [← Progress.validateOptions_ok_iff]
    cases h : Progress.validateOptions o with
    | error e => simp [Progress.construct, h]
    | ok v => simp [Progress.construct, h]
  · exact fun o t c p ht hc hok => Progress.construct_clamps o t c p ht hc hok
  · exact fun so => ⟨rfl, rfl, rfl⟩

/-- C1 witness: `total: 0` and `total: -5` both fail construction;
`total: 100, current: 150` succeeds with `current` clamped to 100; the
default Spinner constructs idle. -/
theorem construction_validation_witness :
    (∀ p, Progress.construct { total := .fin 0 } ≠ .ok p) ∧
    (∀ p, Progress.construct { total := .fin (-5) } ≠ .ok p) ∧
    (∃ p, Progress.construct { total := .fin 100, current := some (.fin 150) } = .ok p ∧
      p.state.current = 100 ∧ p.state.total = 100) ∧
    (Spinner.construct {}).state.isRunning = false := by
  refine ⟨?_, ?_, ?_, (construction_validation.2.2 {}).1⟩
  · intro p hp
    rcases (construction_validation.1 _).mp ⟨p, hp⟩ with ⟨⟨t, ht, hpos⟩, -, -⟩
    rw [show ({ total := .fin 0 } : ProgressOptions).total = JsNum.fin 0 from rfl,
      JsNum.fin.injEq] at ht
    exact absurd (ht ▸ hpos) (by norm_num)
  · intro p hp
    rcases (construction_validation.1 _).mp ⟨p, hp⟩ with ⟨⟨t, ht, hpos⟩, -, -⟩
    rw [show ({ total := .fin (-5) } : ProgressOptions).total = JsNum.fin (-5) from rfl,
      JsNum.fin.injEq] at ht
    exact absurd (ht ▸ hpos) (by norm_num)
  · have hex : ∃ p,
        Progress.construct { total := .fin 100, current := some (.fin 150) } = .ok p :=
      (construction_validation.1 _).mpr
        ⟨⟨100, rfl, by norm_num⟩,
         fun c hc => by cases hc; rfl,
         fun st hst => by cases hst⟩
    obtain ⟨p, hp⟩ := hex
    have h2 := construction_validation.2.1 _ 100 150 p rfl rfl hp
    refine ⟨p, hp, ?_, h2.2⟩
    rw [h2.1]
    norm_num

/-- C3: `update` and `increment` ignore non-finite arguments, leaving the
whole instance unchanged (and never throwing — both are total); a finite
`update` clamps into `[0, total]`; a finite `increment(amount)` is
exactly `update(current + amount)`. -/
theorem update_nonfinite_ignored :
    (∀ (p : Progress) (w : World) (v : JsNum), v.isFinite = false →
      (p.update w v).1 = p ∧ (p.increment w v).1 = p) ∧
    (∀ (p : Progress) (w : World) (c : ℚ),
      (p.update w (.fin c)).1.state.current = max 0 (min p.state.total c)) ∧
    (∀ (p : Progress) (w : World) (a : ℚ),
      p.increment w (.fin a) = p.update w (.fin (p.state.current + a))) := by
  refine ⟨?_, ?_, ?_⟩
  · intro p w v hv
    exact ⟨by rw [Progress.update_eq_nonfin p w v hv],
           by rw [Progress.increment_eq_nonfin p w v hv]⟩
  · exact fun p w c => Progress.update_state_current_fin p w c
  · exact fun p w a => Progress.increment_eq_fin p w a

/-- C3 witness: NaN and the infinities leave the sample instance
untouched; `update(150)` on total 100 clamps to 100. -/
theorem update_nonfinite_ignored_witness :
    JsNum.nan.isFinite = false ∧
    (sampleProgress.update sampleWorld .nan).1 = sampleProgress ∧
    (sampleProgress.update sampleWorld .inf).1 = sampleProgress ∧
    (sampleProgress.update sampleWorld .negInf).1 = sampleProgress ∧
    (sampleProgress.increment sampleWorld .nan).1 = sampleProgress ∧
    (sampleProgress.update sampleWorld (.fin 150)).1.state.current = 100 :=
  ⟨rfl,
   (update_nonfinite_ignored.1 sampleProgress sampleWorld .nan rfl).1,
   (update_nonfinite_ignored.1 sampleProgress sampleWorld .inf rfl).1,
   (update_nonfinite_ignored.1 sampleProgress sampleWorld .negInf rfl).1,
   (update_nonfinite_ignored.1 sampleProgress sampleWorld .nan rfl).2,
   by
    rw [update_nonfinite_ignored.2.1 sampleProgress sampleWorld 150]
    norm_num [sampleProgress]⟩

/-- C8: `increment(x)` followed by `increment(-x)` restores `current`
exactly whenever `current + x` stays inside `[0, total]` (and `current`
itself satisfies the range invariant). -/
theorem increment_round_trip (p : Progress) (w : World) (x : ℚ)
    (hlo : 0 ≤ p.state.current) (hhi : p.state.current ≤ p.state.total)
    (h1 : 0 ≤ p.state.current + x) (h2 : p.state.current + x ≤ p.state.total) :
    ((p.increment w (.fin x)).1.increment (p.increment w (.fin x)).2
      (.fin (-x))).1.state.current = p.state.current := by
  have e1 : (p.increment w (.fin x)).1.state.current = p.state.current + x := by
    rw [Progress.increment_eq_fin, Progress.update_state_current_fin,
      min_eq_right h2, max_eq_right h1]
  have etot : (p.increment w (.fin x)).1.state.total = p.state.total := by
    rw [Progress.increment_eq_fin, Progress.update_state_total_fin]
  rw [Progress.increment_eq_fin, Progress.update_state_current_fin, e1, etot]
  have hx : p.state.current + x + -x = p.state.current := by ring
  rw [hx, min_eq_right hhi, max_eq_right hlo]

/-- C8 witness: the round trip at `current` 50, `total` 100, `x` 30. -/
theorem increment_round_trip_witness :
    ((sampleProgress.increment sampleWorld (.fin 30)).1.increment
      (sampleProgress.increment sampleWorld (.fin 30)).2
      (.fin (-30))).1.state.current = sampleProgress.state.current :=
  increment_round_trip sampleProgress sampleWorld 30
    (by norm_num [sampleProgress]) (by norm_num [sampleProgress])
    (by norm_num [sampleProgress]) (by norm_num [sampleProgress])

namespace Progress

theorem clamp_chain_bounds (t c : ℚ) (h0 : 0 < t) :
    0 ≤ (if (if c < 0 then 0 else c) > t then t else (if c < 0 then 0 else c)) ∧
    (if (if c < 0 then 0 else c) > t then t else (if c < 0 then 0 else c)) ≤ t := by
  rw [clamp_chain_eq t c h0]
  exact ⟨le_max_left _ _, max_le h0.le (min_le_left _ _)⟩

theorem validateOptions_ok_bounds (o v : ProgressOptions)
    (h : Progress.validateOptions o = .ok v) :
    ∃ t : ℚ, o.total = .fin t ∧ 0 < t ∧ v.total = .fin t ∧
      (v.current = none ∨ ∃ cv : ℚ, v.current = some (.fin cv) ∧ 0 ≤ cv ∧ cv ≤ t) := by
  unfold Progress.validateOptions at h
  cases ht : o.total with
  | nan => rw [ht] at h; cases h
  | inf => rw [ht] at h; cases h
  | negInf => rw [ht] at h; cases h
  | fin t =>
    rw [ht] at h
    by_cases h0 : t ≤ 0
    · simp [h0] at h
    · have h0' : 0 < t := not_le.mp h0
      simp only [h0, if_false] at h
      cases hc : o.current with
      | none =>
        rw [hc] at h
        dsimp only at h
        cases hs : o.style with
        | none =>
          rw [hs] at h
          simp only [Except.ok.injEq] at h
          subst h
          refine ⟨t, ?_, h0', ?_, Or.inl (by simp [hc])⟩ <;> first | exact ht | rfl
        | some st =>
          rw [hs] at h
          dsimp only at h
          by_cases hst : (["bar", "blocks", "dots"].contains st) = true
          · rw [if_pos hst] at h
            simp only [Except.ok.injEq] at h
            subst h
            refine ⟨t, ?_, h0', ?_, Or.inl (by simp [hc])⟩ <;> first | exact ht | rfl
          · rw [if_neg hst] at h
            cases h
      | some c =>
        cases c with
        | nan => rw [hc] at h; cases h
        | inf => rw [hc] at h; cases h
        | negInf => rw [hc] at h; cases h
        | fin cv =>
          rw [hc] at h
          dsimp only at h
          cases hs : o.style with
          | none =>
            rw [hs] at h
            simp only [Except.ok.injEq] at h
            subst h
            exact ⟨t, rfl, h0', rfl,
              Or.inr ⟨_, rfl, (clamp_chain_bounds t cv h0').1,
                (clamp_chain_bounds t cv h0').2⟩⟩
          | some st =>
            rw [hs] at h
            dsimp only at h
            by_cases hst : (["bar", "blocks", "dots"].contains st) = true
            · rw [if_pos hst] at h
              simp only [Except.ok.injEq] at h
              subst h
              exact ⟨t, rfl, h0', rfl,
                Or.inr ⟨_, rfl, (clamp_chain_bounds t cv h0').1,
                  (clamp_chain_bounds t cv h0').2⟩⟩
            · rw [if_neg hst] at h
              cases h

theorem construct_range (o : ProgressOptions) (p : Progress)
    (hok : Progress.construct o = .ok p) : progressInRange p := by
  unfold Progress.construct at hok
  cases hv : Progress.validateOptions o with
  | error e => rw [hv] at hok; cases hok
  | ok v =>
    rw [hv] at hok
    simp only [Except.ok.injEq] at hok
    subst hok
    obtain ⟨t, _, h0', hvt, hcur⟩ := validateOptions_ok_bounds o v hv
    rcases hcur with hnone | ⟨cv, hsome, hclo, hchi⟩
    · constructor
      · simp [hnone, Progress.defaultOptions]
      · simp [hnone, hvt, JsNum.toQ, Progress.defaultOptions, h0'.le]
    · constructor
      · simp [hsome, JsNum.toQ, hclo]
      · simp [hsome, hvt, JsNum.toQ, hchi]

theorem range_start (p : Progress) (w : World) (t : Option String)
    (h : progressInRange p) : progressInRange (p.start w t).1 := by
  unfold progressInRange
  rw [start_state_current, start_state_total]
  exact h

theorem range_update (p : Progress) (w : World) (v : JsNum)
    (h : progressInRange p) : progressInRange (p.update w v).1 := by
  cases v with
  | fin c =>
    unfold progressInRange
    rw [update_state_current_fin, update_state_total_fin]
    exact ⟨le_max_left _ _, max_le (h.1.trans h.2) (min_le_left _ _)⟩
  | nan => rw [update_eq_nonfin p w JsNum.nan rfl]; exact h
  | inf => rw [update_eq_nonfin p w JsNum.inf rfl]; exact h
  | negInf => rw [update_eq_nonfin p w JsNum.negInf rfl]; exact h

theorem range_increment (p : Progress) (w : World) (v : JsNum)
    (h : progressInRange p) : progressInRange (p.increment w v).1 := by
  cases v with
  | fin a => rw [increment_eq_fin]; exact range_update _ _ _ h
  | nan => rw [increment_eq_nonfin p w JsNum.nan rfl]; exact h
  | inf => rw [increment_eq_nonfin p w JsNum.inf rfl]; exact h
  | negInf => rw [increment_eq_nonfin p w JsNum.negInf rfl]; exact h

theorem range_stop (p : Progress) (w : World)
    (h : progressInRange p) : progressInRange (p.stop w).1 := by
  unfold progressInRange
  rw [stop_state_current, stop_state_total]
  exact h

theorem range_updateText (p : Progress) (w : World) (t : String)
    (h : progressInRange p) : progressInRange (p.updateText w t).1 := by
  unfold progressInRange
  rw [updateText_fst]
  exact h

theorem range_succeed (p : Progress) (w : World) (t : Option String)
    (h : progressInRange p) : progressInRange (p.succeed w t).1 := by
  rw [succeed_fst]
  exact range_stop _ _ h

theorem range_fail (p : Progress) (w : World) (t : Option String)
    (h : progressInRange p) : progressInRange (p.fail w t).1 := by
  rw [fail_fst]
  exact range_stop _ _ h

theorem range_warn (p : Progress) (w : World) (t : Option String)
    (h : progressInRange p) : progressInRange (p.warn w t).1 := by
  rw [warn_fst]
  exact range_stop _ _ h

theorem range_info (p : Progress) (w : World) (t : Option String)
    (h : progressInRange p) : progressInRange (p.info w t).1 := by
  rw [info_fst]
  exact range_stop _ _ h

theorem range_complete (p : Progress) (w : World)
    (h : progressInRange p) : progressInRange (p.complete w).1 := by
  rw [complete_fst]
  exact range_stop _ _ (range_update _ _ _ h)

end Progress

/-- C7: `0 ≤ current ≤ total` holds after construction and is preserved
by every public operation of `Progress`. -/
theorem current_range_invariant :
    (∀ (o : ProgressOptions) (p : Progress),
      Progress.construct o = .ok p → progressInRange p) ∧
    (∀ (p : Progress) (w : World) (t : Option String),
      progressInRange p → progressInRange (p.start w t).1) ∧
    (∀ (p : Progress) (w : World) (v : JsNum),
      progressInRange p → progressInRange (p.update w v).1) ∧
    (∀ (p : Progress) (w : World) (v : JsNum),
      progressInRange p → progressInRange (p.increment w v).1) ∧
    (∀ (p : Progress) (w : World),
      progressInRange p → progressInRange (p.complete w).1) ∧
    (∀ (p : Progress) (w : World) (t : String),
      progressInRange p → progressInRange (p.updateText w t).1) ∧
    (∀ (p : Progress) (w : World),
      progressInRange p → progressInRange (p.stop w).1) ∧
    (∀ (p : Progress) (w : World) (t : Option String),
      progressInRange p → progressInRange (p.succeed w t).1) ∧
    (∀ (p : Progress) (w : World) (t : Option String),
      progressInRange p → progressInRange (p.fail w t).1) ∧
    (∀ (p : Progress) (w : World) (t : Option String),
      progressInRange p → progressInRange (p.warn w t).1) ∧
    (∀ (p : Progress) (w : World) (t : Option String),
      progressInRange p → progressInRange (p.info w t).1) :=
  ⟨Progress.construct_range,
   Progress.range_start, Progress.range_update, Progress.range_increment,
   Progress.range_complete, Progress.range_updateText, Progress.range_stop,
   Progress.range_succeed, Progress.range_fail, Progress.range_warn,
   Progress.range_info⟩

/-- C7 witness: the invariant at the constructed instance and after
concrete out-of-range mutations. -/
theorem current_range_invariant_witness :
    Progress.construct { total := .fin 100 } = .ok constructedProgress ∧
    progressInRange constructedProgress ∧
    progressInRange (constructedProgress.update sampleWorld (.fin 150)).1 ∧
    progressInRange (constructedProgress.increment sampleWorld (.fin (-500))).1 :=
  ⟨rfl,
   current_range_invariant.1 { total := .fin 100 } constructedProgress rfl,
   current_range_invariant.2.2.1 constructedProgress sampleWorld (.fin 150)
     (current_range_invariant.1 { total := .fin 100 } constructedProgress rfl),
   current_range_invariant.2.2.2.1 constructedProgress sampleWorld (.fin (-500))
     (current_range_invariant.1 { total := .fin 100 } constructedProgress rfl)⟩

namespace Progress

theorem start_fst_isRunning (p : Progress) (w : World) (t : Option String) :
    (p.start w t).1.state.isRunning = true := by
  cases h : p.state.isRunning with
  | true => rw [start_of_running p w t h]; exact h
  | false => rw [start_fst p w t h]

theorem timerInv_construct (o : ProgressOptions) (p : Progress)
    (hok : Progress.construct o = .ok p) : p.timerInv := by
  unfold Progress.construct at hok
  cases hv : Progress.validateOptions o with
  | error e => rw [hv] at hok; cases hok
  | ok v =>
    rw [hv] at hok
    simp only [Except.ok.injEq] at hok
    subst hok
    rfl

theorem timerInv_start (p : Progress) (w : World) (t : Option String)
    (h : p.timerInv) : (p.start w t).1.timerInv := by
  cases hr : p.state.isRunning with
  | true => rw [start_of_running p w t hr]; exact h
  | false => unfold timerInv; rw [start_fst p w t hr]; rfl

theorem timerInv_stop (p : Progress) (w : World)
    (h : p.timerInv) : (p.stop w).1.timerInv := by
  cases hr : p.state.isRunning with
  | false => rw [stop_of_not_running p w hr]; exact h
  | true => unfold timerInv; rw [stop_fst p w hr]; rfl

theorem timerInv_update (p : Progress) (w : World) (v : JsNum)
    (h : p.timerInv) : (p.update w v).1.timerInv := by
  cases v with
  | fin c => unfold timerInv; rw [update_fst_fin]; exact h
  | nan => rw [update_eq_nonfin p w JsNum.nan rfl]; exact h
  | inf => rw [update_eq_nonfin p w JsNum.inf rfl]; exact h
  | negInf => rw [update_eq_nonfin p w JsNum.negInf rfl]; exact h

theorem timerInv_increment (p : Progress) (w : World) (v : JsNum)
    (h : p.timerInv) : (p.increment w v).1.timerInv := by
  cases v with
  | fin a => rw [increment_eq_fin]; exact timerInv_update _ _ _ h
  | nan => rw [increment_eq_nonfin p w JsNum.nan rfl]; exact h
  | inf => rw [increment_eq_nonfin p w JsNum.inf rfl]; exact h
  | negInf => rw [increment_eq_nonfin p w JsNum.negInf rfl]; exact h

theorem timerInv_updateText (p : Progress) (w : World) (t : String)
    (h : p.timerInv) : (p.updateText w t).1.timerInv := by
  unfold timerInv
  rw [updateText_fst]
  exact h

theorem timerInv_succeed (p : Progress) (w : World) (t : Option String)
    (h : p.timerInv) : (p.succeed w t).1.timerInv := by
  rw [succeed_fst]
  exact timerInv_stop _ _ h

theorem timerInv_fail (p : Progress) (w : World) (t : Option String)
    (h : p.timerInv) : (p.fail w t).1.timerInv := by
  rw [fail_fst]
  exact timerInv_stop _ _ h

theorem timerInv_warn (p : Progress) (w : World) (t : Option String)
    (h : p.timerInv) : (p.warn w t).1.timerInv := by
  rw [warn_fst]
  exact timerInv_stop _ _ h

theorem timerInv_info (p : Progress) (w : World) (t : Option String)
    (h : p.timerInv) : (p.info w t).1.timerInv := by
  rw [info_fst]
  exact timerInv_stop _ _ h

theorem timerInv_complete (p : Progress) (w : World)
    (h : p.timerInv) : (p.complete w).1.timerInv := by
  rw [complete_fst]
  exact timerInv_stop _ _ (timerInv_update _ _ _ h)

theorem stop_snd_timers (p : Progress) (w : World) (id : ℕ)
    (hr : p.state.isRunning = true) (hi : p.intervalId = some id) :
    (p.stop w).2.timers = w.timers.erase id := by
  unfold stop
  simp only [hr, Bool.not_true, Bool.false_eq_true, if_false]
  simp only [hi]
  rfl

theorem start_start (p : Progress) (w : World) (t t' : Option String) :
    (p.start w t).1.start (p.start w t).2 t' = ((p.start w t).1, (p.start w t).2) :=
  start_of_running _ _ _ (start_fst_isRunning p w t)

end Progress

namespace Spinner

theorem timerInv_construct' (so : SpinnerOptions) :
    (Spinner.construct so).timerInv := rfl

theorem timerInv_start' (s : Spinner) (w : World) (t : Option String)
    (h : s.timerInv) : (s.start w t).1.timerInv := by
  cases hr : s.state.isRunning with
  | true => rw [start_of_running' s w t hr]; exact h
  | false =>
    unfold timerInv
    rw [start_fst_intervalId s w t hr, start_fst_isRunning']
    rfl

theorem timerInv_stop' (s : Spinner) (w : World)
    (h : s.timerInv) : (s.stop w).1.timerInv := by
  cases hr : s.state.isRunning with
  | false => rw [stop_of_not_running' s w hr]; exact h
  | true => unfold timerInv; rw [stop_fst' s w hr]; rfl

theorem timerInv_updateText' (s : Spinner) (w : World) (t : String)
    (h : s.timerInv) : (s.updateText w t).1.timerInv := by
  unfold timerInv
  rw [(updateText_fst' s w t).2.1, (updateText_fst' s w t).2.2]
  exact h

theorem timerInv_succeed' (s : Spinner) (w : World) (t : Option String)
    (h : s.timerInv) : (s.succeed w t).1.timerInv := by
  rw [succeed_fst']
  exact timerInv_stop' _ _ h

theorem timerInv_fail' (s : Spinner) (w : World) (t : Option String)
    (h : s.timerInv) : (s.fail w t).1.timerInv := by
  rw [fail_fst']
  exact timerInv_stop' _ _ h

theorem timerInv_warn' (s : Spinner) (w : World) (t : Option String)
    (h : s.timerInv) : (s.warn w t).1.timerInv := by
  rw [warn_fst']
  exact timerInv_stop' _ _ h

theorem timerInv_info' (s : Spinner) (w : World) (t : Option String)
    (h : s.timerInv) : (s.info w t).1.timerInv := by
  rw [info_fst']
  exact timerInv_stop' _ _ h

theorem stop_snd_timers' (s : Spinner) (w : World) (id : ℕ)
    (hr : s.state.isRunning = true) (hi : s.intervalId = some id) :
    (s.stop w).2.timers = w.timers.erase id := by
  unfold stop
  simp only [hr, Bool.not_true, Bool.false_eq_true, if_false]
  simp only [hi]
  rfl

theorem start_start' (s : Spinner) (w : World) (t t' : Option String) :
    (s.start w t).1.start (s.start w t).2 t' = ((s.start w t).1, (s.start w t).2) :=
  start_of_running' _ _ _ (start_fst_isRunning' s w t)

end Spinner

/-- C4: for both components, "timer handle set iff running" holds at
construction and is preserved by every public operation; `start()` while
running is a no-op (so a second `start()` adds no timer), `stop()` while
not running is a no-op, a fresh `start()` registers exactly one new
timer, and `stop()` on a running instance releases exactly its timer. -/
theorem timer_invariant :
    (∀ (o : ProgressOptions) (p : Progress),
      Progress.construct o = .ok p → p.timerInv) ∧
    (∀ (p : Progress) (w : World) (t : Option String),
      p.timerInv → (p.start w t).1.timerInv) ∧
    (∀ (p : Progress) (w : World), p.timerInv → (p.stop w).1.timerInv) ∧
    (∀ (p : Progress) (w : World) (v : JsNum),
      p.timerInv → (p.update w v).1.timerInv) ∧
    (∀ (p : Progress) (w : World) (v : JsNum),
      p.timerInv → (p.increment w v).1.timerInv) ∧
    (∀ (p : Progress) (w : World), p.timerInv → (p.complete w).1.timerInv) ∧
    (∀ (p : Progress) (w : World) (t : String),
      p.timerInv → (p.updateText w t).1.timerInv) ∧
    (∀ (p : Progress) (w : World) (t : Option String),
      p.timerInv → (p.succeed w t).1.timerInv) ∧
    (∀ (p : Progress) (w : World) (t : Option String),
      p.timerInv → (p.fail w t).1.timerInv) ∧
    (∀ (p : Progress) (w : World) (t : Option String),
      p.timerInv → (p.warn w t).1.timerInv) ∧
    (∀ (p : Progress) (w : World) (t : Option String),
      p.timerInv → (p.info w t).1.timerInv) ∧
    (∀ (p : Progress) (w : World) (t : Option String),
      p.state.isRunning = true → p.start w t = (p, w)) ∧
    (∀ (p : Progress) (w : World) (t t' : Option String),
      (p.start w t).1.start (p.start w t).2 t' = ((p.start w t).1, (p.start w t).2)) ∧
    (∀ (p : Progress) (w : World),
      p.state.isRunning = false → p.stop w = (p, w)) ∧
    (∀ (p : Progress) (w : World) (t : Option String),
      p.state.isRunning = false →
        (p.start w t).1.intervalId = some w.nextId ∧
        (p.start w t).2.timers = w.timers ++ [w.nextId]) ∧
    (∀ (p : Progress) (w : World) (id : ℕ),
      p.state.isRunning = true → p.intervalId = some id →
        (p.stop w).2.timers = w.timers.erase id) ∧
    (∀ so : SpinnerOptions, (Spinner.construct so).timerInv) ∧
    (∀ (s : Spinner) (w : World) (t : Option String),
      s.timerInv → (s.start w t).1.timerInv) ∧
    (∀ (s : Spinner) (w : World), s.timerInv → (s.stop w).1.timerInv) ∧
    (∀ (s : Spinner) (w : World) (t : String),
      s.timerInv → (s.updateText w t).1.timerInv) ∧
    (∀ (s : Spinner) (w : World) (t : Option String),
      s.timerInv → (s.succeed w t).1.timerInv) ∧
    (∀ (s : Spinner) (w : World) (t : Option String),
      s.timerInv → (s.fail w t).1.timerInv) ∧
    (∀ (s : Spinner) (w : World) (t : Option String),
      s.timerInv → (s.warn w t).1.timerInv) ∧
    (∀ (s : Spinner) (w : World) (t : Option String),
      s.timerInv → (s.info w t).1.timerInv) ∧
    (∀ (s : Spinner) (w : World) (t : Option String),
      s.state.isRunning = true → s.start w t = (s, w)) ∧
    (∀ (s : Spinner) (w : World) (t t' : Option String),
      (s.start w t).1.start (s.start w t).2 t' = ((s.start w t).1, (s.start w t).2)) ∧
    (∀ (s : Spinner) (w : World),
      s.state.isRunning = false → s.stop w = (s, w)) ∧
    (∀ (s : Spinner) (w : World) (t : Option String),
      s.state.isRunning = false →
        (s.start w t).1.intervalId = some w.nextId ∧
        (s.start w t).2.timers = w.timers ++ [w.nextId]) ∧
    (∀ (s : Spinner) (w : World) (id : ℕ),
      s.state.isRunning = true → s.intervalId = some id →
        (s.stop w).2.timers = w.timers.erase id) :=
  ⟨Progress.timerInv_construct, Progress.timerInv_start, Progress.timerInv_stop,
   Progress.timerInv_update, Progress.timerInv_increment, Progress.timerInv_complete,
   Progress.timerInv_updateText, Progress.timerInv_succeed, Progress.timerInv_fail,
   Progress.timerInv_warn, Progress.timerInv_info,
   Progress.start_of_running, Progress.start_start, Progress.stop_of_not_running,
   fun p w t h => ⟨by rw [Progress.start_fst p w t h], (Progress.start_snd_timers p w t h).1⟩,
   Progress.stop_snd_timers,
   Spinner.timerInv_construct', Spinner.timerInv_start', Spinner.timerInv_stop',
   Spinner.timerInv_updateText', Spinner.timerInv_succeed', Spinner.timerInv_fail',
   Spinner.timerInv_warn', Spinner.timerInv_info',
   Spinner.start_of_running', Spinner.start_start', Spinner.stop_of_not_running',
   fun s w t h => ⟨Spinner.start_fst_intervalId s w t h, (Spinner.start_snd_timers' s w t h).1⟩,
   Spinner.stop_snd_timers'⟩

/-- C4 witness: the invariant at concretely constructed instances, a
fresh `start()` registering timer 1, and the no-op cases, all at the
sample instances. -/
theorem timer_invariant_witness :
    constructedProgress.timerInv ∧
    (constructedProgress.start sampleWorld none).1.timerInv ∧
    (constructedProgress.stop sampleWorld) = (constructedProgress, sampleWorld) ∧
    (sampleProgress.start sampleWorld none).1.intervalId = some sampleWorld.nextId ∧
    (sampleProgress.start sampleWorld none).2.timers =
      sampleWorld.timers ++ [sampleWorld.nextId] ∧
    (Spinner.construct {}).timerInv ∧
    ((Spinner.construct {}).stop sampleWorld) = (Spinner.construct {}, sampleWorld) :=
  ⟨timer_invariant.1 { total := .fin 100 } constructedProgress rfl,
   timer_invariant.2.1 constructedProgress sampleWorld none
     (timer_invariant.1 { total := .fin 100 } constructedProgress rfl),
   timer_invariant.2.2.2.2.2.2.2.2.2.2.2.2.2.1 constructedProgress sampleWorld rfl,
   (timer_invariant.2.2.2.2.2.2.2.2.2.2.2.2.2.2.1 sampleProgress sampleWorld none rfl).1,
   (timer_invariant.2.2.2.2.2.2.2.2.2.2.2.2.2.2.1 sampleProgress sampleWorld none rfl).2,
   timer_invariant.2.2.2.2.2.2.2.2.2.2.2.2.2.2.2.2.1 {},
   timer_invariant.2.2.2.2.2.2.2.2.2.2.2.2.2.2.2.2.2.2.2.2.2.2.2.2.2.2.1
     (Spinner.construct {}) sampleWorld rfl⟩

namespace Spinner

theorem stop_fst_isRunning (s : Spinner) (w : World) :
    (s.stop w).1.state.isRunning = false := by
  cases hr : s.state.isRunning with
  | false => rw [stop_of_not_running' s w hr]; exact hr
  | true => rw [stop_fst' s w hr]

theorem stop_stop (s : Spinner) (w : World) :
    (s.stop w).1.stop (s.stop w).2 = ((s.stop w).1, (s.stop w).2) :=
  stop_of_not_running' _ _ (stop_fst_isRunning s w)

theorem render_run (s : Spinner) (w : World)
    (hr : s.state.isRunning = true) (hsh : s.state.options.showFlag = true)
    (hne : s.state.options.spinner ≠ []) :
    s.render w =
      ({ s with state := { s.state with frameIndex := s.state.frameIndex + 1 } },
       w.write ("\r\x1b[K"
         ++ getStyleCode s.state.options.bold s.state.options.italic
              s.state.options.underline
         ++ (if s.state.options.backgroundColor ≠ "" then
               getBackgroundColorCode s.state.options.backgroundColor
             else "")
         ++ (if s.state.options.color ≠ "" then
               getColorCode s.state.options.color
             else "")
         ++ ((s.state.options.spinner.get?
               (s.state.frameIndex % s.state.options.spinner.length)).getD "")
         ++ (if s.state.text ≠ "" then " " ++ s.state.text else "")
         ++ "\x1b[0m")) := by
  unfold render
  simp [hr, hsh, List.length_eq_zero, hne]

end Spinner

/-- C9: a Spinner with an empty frame array renders as a safe no-op
(nothing written, `frameIndex` untouched, no failure — `render` is
total), while `start()`/`stop()` stay well-defined and idempotent; with
a non-empty frame array a running, shown spinner writes the frame at
`frameIndex mod frames.length` and then increments `frameIndex`. -/
theorem spinner_empty_frames_safe :
    (∀ (s : Spinner) (w : World),
      s.state.options.spinner = [] → s.render w = (s, w)) ∧
    (∀ (s : Spinner) (w : World),
      s.state.isRunning = true → s.state.options.showFlag = true →
      s.state.options.spinner ≠ [] →
      (s.render w).1.state.frameIndex = s.state.frameIndex + 1 ∧
      (s.render w).2.out = w.out ++ ("\r\x1b[K"
        ++ getStyleCode s.state.options.bold s.state.options.italic
             s.state.options.underline
        ++ (if s.state.options.backgroundColor ≠ "" then
              getBackgroundColorCode s.state.options.backgroundColor
            else "")
        ++ (if s.state.options.color ≠ "" then
              getColorCode s.state.options.color
            else "")
        ++ ((s.state.options.spinner.get?
              (s.state.frameIndex % s.state.options.spinner.length)).getD "")
        ++ (if s.state.text ≠ "" then " " ++ s.state.text else "")
        ++ "\x1b[0m")) ∧
    (∀ (s : Spinner) (w : World) (t : Option String),
      s.state.isRunning = true → s.start w t = (s, w)) ∧
    (∀ (s : Spinner) (w : World) (t t' : Option String),
      (s.start w t).1.start (s.start w t).2 t' =
        ((s.start w t).1, (s.start w t).2)) ∧
    (∀ (s : Spinner) (w : World),
      s.state.isRunning = false → s.stop w = (s, w)) ∧
    (∀ (s : Spinner) (w : World),
      (s.stop w).1.stop (s.stop w).2 = ((s.stop w).1, (s.stop w).2)) := by
  refine ⟨?_, ?_, Spinner.start_of_running', Spinner.start_start',
    Spinner.stop_of_not_running', Spinner.stop_stop⟩
  · exact fun s w h => Spinner.render_empty s w h
  · intro s w hr hsh hne
    rw [Spinner.render_run s w hr hsh hne]
    exact ⟨rfl, rfl⟩

/-- C9 witness: the empty-frame spinner renders as a no-op and stops as
a no-op; the concrete running spinner advances its frame index. -/
theorem spinner_empty_frames_safe_witness :
    emptyFrameSpinner.render sampleWorld = (emptyFrameSpinner, sampleWorld) ∧
    emptyFrameSpinner.stop sampleWorld = (emptyFrameSpinner, sampleWorld) ∧
    (runningSpinner.render sampleWorld).1.state.frameIndex = 4 ∧
    (runningSpinner.render sampleWorld).2.out = sampleWorld.out
      ++ ("\r\x1b[K" ++ getStyleCode false false false ++ "" ++ ""
        ++ ((["a", "b", "c"].get? (3 % 3)).getD "") ++ " load" ++ "\x1b[0m") := by
  refine ⟨spinner_empty_frames_safe.1 emptyFrameSpinner sampleWorld rfl,
    spinner_empty_frames_safe.2.2.2.2.1 emptyFrameSpinner sampleWorld rfl, ?_, ?_⟩
  · exact (spinner_empty_frames_safe.2.1 runningSpinner sampleWorld rfl rfl
      (by decide)).1
  · have h := (spinner_empty_frames_safe.2.1 runningSpinner sampleWorld rfl rfl
      (by decide)).2
    rw [h]
    rfl
